import Mathlib

/-!
Formal model of the image-rendering orchestrator of
`src/js/lib/render-image.js` (class `RenderImage`): backend selection,
operation-stack sanitization, and the phased `render()` protocol, together
with proofs of the specified properties.

The orchestrator's collaborators (the `Vector2` value type, the
`ImageDimensions` resolver, the two renderer backends and the operations)
are external to the fragment; they are modelled from the spec's contracts,
as noted on each definition. Everything about `RenderImage` itself is
translated from the source.
-/

namespace Imgly

/-- Rejection reason carried by a failed operation promise. The source
propagates arbitrary rejection values unchanged; we model them as natural
numbers. -/
abbrev Err := Nat

/-- Modelled from the spec: the 2D size/vector value
(`src/js/lib/math/vector2.js`, not part of the fragment): an immutable pair
of numeric width/height with an equality comparison. -/
structure Vector2 where
  x : Int
  y : Int
deriving DecidableEq, Repr

/-- Modelled from the spec: `vector.equals(other)` compares both
components. -/
def Vector2.equals (a b : Vector2) : Bool :=
  a.x == b.x && a.y == b.y

/-- Modelled from the spec: the Dimension Resolver
(`src/js/lib/image-dimensions.js`, not part of the fragment). Contract:
given a current size and the stored dimensions specification, return the
resolved final size, deterministically and without side effects. A parsed
dimensions specification is modelled directly as its resolving function. -/
structure ImageDimensions where
  calculateFinalDimensions : Vector2 → Vector2

/-- An image handle: an opaque identity plus the pixel width/height known
at construction time. -/
structure Image where
  id : Nat
  width : Int
  height : Int

/-- The host execution environment as probed by the two backends'
`isSupported` capability queries. Modelled from the spec: capability
probing queries the host environment, not the input data. -/
structure Environment where
  webglSupported : Bool
  canvasSupported : Bool
deriving DecidableEq, Repr

/-- `WebGLRenderer.isSupported()` (`src/js/renderers/webgl-renderer.js`,
not part of the fragment): capability probe against the host
environment. -/
def webglIsSupported (env : Environment) : Bool := env.webglSupported

/-- `CanvasRenderer.isSupported()` (`src/js/renderers/canvas-renderer.js`,
not part of the fragment): capability probe against the host
environment. -/
def canvasIsSupported (env : Environment) : Bool := env.canvasSupported

/-- Which backend variant a renderer instance is. -/
inductive RendererKind where
  | webgl
  | canvas
deriving DecidableEq, Repr

/-- Modelled from the spec: a rendering backend instance. The fragment
only observes which variant it is and the current pixel size of its
output. -/
structure Renderer where
  kind : RendererKind
  size : Vector2
deriving DecidableEq, Repr

/-- An observable call issued by the orchestrator: the operation-level
requests and the backend protocol operations. -/
inductive Event where
  | validate (opId : Nat)
  | renderOp (opId : Nat)
  | drawImage (imageId : Nat)
  | renderFinal
  | getSize
  | resizeTo (size : Vector2)
deriving DecidableEq, Repr

/-- Modelled from the spec: `renderer.drawImage(image)` seeds the backend
with the original source pixels; the output size is unchanged. -/
def Renderer.drawImage (r : Renderer) (image : Image) : Renderer × Event :=
  (r, Event.drawImage image.id)

/-- Modelled from the spec: `renderer.renderFinal()` commits the
accumulated state into the definitive output buffer, keeping the current
size. -/
def Renderer.renderFinal (r : Renderer) : Renderer × Event :=
  (r, Event.renderFinal)

/-- Modelled from the spec: `renderer.getSize()` reports the current pixel
size of the committed output. -/
def Renderer.getSize (r : Renderer) : Vector2 × Event :=
  (r.size, Event.getSize)

/-- Modelled from the spec: `renderer.resizeTo(size)` mutates the backend
output to the given size. -/
def Renderer.resizeTo (r : Renderer) (v : Vector2) : Renderer × Event :=
  ({ r with size := v }, Event.resizeTo v)

/-- An externally supplied operation. Modelled from the spec:
`validateResult` is the settled outcome of its `validateSettings()`
promise, `renderResult` the settled outcome of its `render(renderer)`
promise, and `sizeEffect` its effect on the backend output size. -/
structure Operation where
  id : Nat
  validateResult : Except Err Unit
  renderResult : Except Err Unit
  sizeEffect : Vector2 → Vector2

/-- `operation.validateSettings()`: the settled validation outcome. -/
def Operation.validateSettings (op : Operation) : Except Err Unit :=
  op.validateResult

/-- `operation.render(renderer)`: apply the operation against the shared
backend, yielding the mutated backend, the call event and the settled
outcome. -/
def Operation.render (op : Operation) (r : Renderer) :
    Renderer × Event × Except Err Unit :=
  ({ r with size := op.sizeEffect r.size }, Event.renderOp op.id,
    op.renderResult)

/-- `Promise.all` over already-settled results: succeeds when every entry
succeeds, otherwise fails with the first rejection in order. -/
def promiseAll : List (Except Err Unit) → Except Err Unit
  | [] => Except.ok ()
  | Except.ok _ :: rest => promiseAll rest
  | Except.error e :: _ => Except.error e

/-- The error thrown by the constructor:
`"Neither Canvas nor WebGL renderer are supported."`. -/
inductive ConstructError where
  | noRendererAvailable
deriving DecidableEq, Repr

/-- The `RenderImage` instance state: `_options.preferredRenderer`,
`_webglEnabled`, `_renderer`, `_image`, `_stack`, `_dimensions` and
`_initialDimensions`. -/
structure RenderImage where
  preferredRenderer : String
  webglEnabled : Bool
  renderer : Renderer
  image : Image
  stack : List (Option Operation)
  dimensions : ImageDimensions
  initialDimensions : Vector2

/-- The loop of the `sanitizedStack` getter: drop falsy entries, keep the
rest in order. -/
def sanitizedStackOf : List (Option Operation) → List Operation
  | [] => []
  | none :: rest => sanitizedStackOf rest
  | some op :: rest => op :: sanitizedStackOf rest

/-- The `sanitizedStack` getter: the operations stack without falsy
values. -/
def RenderImage.sanitizedStack (ri : RenderImage) : List Operation :=
  sanitizedStackOf ri.stack

/-- The selection part of `_initRenderer`: WebGL when it reports supported
and the preference is not `"canvas"`; else Canvas when it reports
supported; else none. The boolean is the `_webglEnabled` flag recorded for
the choice. -/
def selectRenderer (env : Environment) (pref : String)
    (initialDimensions : Vector2) : Option (Renderer × Bool) :=
  if webglIsSupported env && pref != "canvas" then
    some (Renderer.mk RendererKind.webgl initialDimensions, true)
  else if canvasIsSupported env then
    some (Renderer.mk RendererKind.canvas initialDimensions, false)
  else
    none

/-- The constructor: snapshot the initial size from the image, run
`_initRenderer` (backend selection, the null check that throws
`NoRendererAvailable`, then the initial `drawImage`). Returns the backend
events issued during construction alongside the constructed instance, or
the synchronously thrown error. -/
def RenderImage.construct (env : Environment) (image : Image)
    (operationsStack : List (Option Operation))
    (dimensions : ImageDimensions) (preferredRenderer : String) :
    List Event × Except ConstructError RenderImage :=
  let initialDimensions := Vector2.mk image.width image.height
  match selectRenderer env preferredRenderer initialDimensions with
  | none => ([], Except.error ConstructError.noRendererAvailable)
  | some (r, flag) =>
    let drawn := r.drawImage image
    ([drawn.2],
      Except.ok
        { preferredRenderer := preferredRenderer
          webglEnabled := flag
          renderer := drawn.1
          image := image
          stack := operationsStack
          dimensions := dimensions
          initialDimensions := initialDimensions })

/-- The render-phase fan-out: every operation of the sanitized stack is
asked to `render` against the shared backend, whose state accumulates the
effects in request order. -/
def renderPhase : List Operation → Renderer → Renderer
  | [], r => r
  | op :: rest, r => renderPhase rest (op.render r).1

/-- The settled result of one `render()` invocation: the trace of
operation and backend calls it issued, the backend state it left behind,
and the resolved or rejected outcome. -/
structure RenderResult where
  trace : List Event
  renderer : Renderer
  outcome : Except Err Unit

/-- `render()`: compute the sanitized stack, request every operation's
`validateSettings` (phase 2), then every operation's `render` against the
shared backend (phase 3), then the backend's `renderFinal`, then resolve
the final dimensions from `getSize` and the stored specification, calling
`resizeTo` only when they differ (phases 4 and 5). A failed `Promise.all`
short-circuits the remaining phases and rejects the whole call. -/
def RenderImage.render (ri : RenderImage) : RenderResult :=
  let stack := ri.sanitizedStack
  let validationEvents := stack.map (fun op => Event.validate op.id)
  match promiseAll (stack.map Operation.validateSettings) with
  | Except.error e => ⟨validationEvents, ri.renderer, Except.error e⟩
  | Except.ok _ =>
    let renderEvents := stack.map (fun op => Event.renderOp op.id)
    let afterOps := renderPhase stack ri.renderer
    match promiseAll (stack.map (fun op => (op.render ri.renderer).2.2)) with
    | Except.error e =>
      ⟨validationEvents ++ renderEvents, afterOps, Except.error e⟩
    | Except.ok _ =>
      let final := afterOps.renderFinal
      let sized := final.1.getSize
      let initialSize := sized.1
      let finalDimensions := ri.dimensions.calculateFinalDimensions initialSize
      if finalDimensions.equals initialSize then
        ⟨validationEvents ++ renderEvents ++ [final.2, sized.2], final.1,
          Except.ok ()⟩
      else
        let resized := final.1.resizeTo finalDimensions
        ⟨validationEvents ++ renderEvents ++ [final.2, sized.2, resized.2],
          resized.1, Except.ok ()⟩

/-- `getRenderer()`: the chosen renderer instance. -/
def RenderImage.getRenderer (ri : RenderImage) : Renderer :=
  ri.renderer

/-- The instance state after one `render()` call: the shared renderer
object carries the mutations, all other fields are untouched. -/
def RenderImage.afterRender (ri : RenderImage) : RenderImage :=
  { ri with renderer := (ri.render).renderer }

/-- The arguments of the `resizeTo` requests recorded in a trace, in
order. -/
def resizeArgs (t : List Event) : List Vector2 :=
  t.filterMap (fun e =>
    match e with
    | Event.resizeTo v => some v
    | _ => none)

/-- The operation ids whose `validateSettings` was requested in a trace,
in order. -/
def validatedIds (t : List Event) : List Nat :=
  t.filterMap (fun e =>
    match e with
    | Event.validate i => some i
    | _ => none)

/-! Concrete sample data used for the closed instantiations below. -/

/-- A concrete 100 by 100 sample image. -/
def sampleImage : Image := ⟨0, 100, 100⟩

/-- A dimensions specification resolving to the identity. -/
def identityDims : ImageDimensions := ⟨fun s => s⟩

/-- A dimensions specification resolving every size to 50 by 50. -/
def fixedDims : ImageDimensions := ⟨fun _ => ⟨50, 50⟩⟩

/-- An operation whose validation and render steps both succeed. -/
def okOp (i : Nat) : Operation :=
  ⟨i, Except.ok (), Except.ok (), fun s => s⟩

/-- An operation whose validation fails with the given reason. -/
def badValidateOp (i : Nat) (e : Err) : Operation :=
  ⟨i, Except.error e, Except.ok (), fun s => s⟩

/-- A host environment supporting both backends. -/
def sampleEnv : Environment := ⟨true, true⟩

/-- A concrete canvas renderer at 100 by 100. -/
def sampleRenderer : Renderer := ⟨RendererKind.canvas, ⟨100, 100⟩⟩

/-- A concrete orchestrator instance over the given stack. -/
def sampleRI (stack : List (Option Operation)) : RenderImage :=
  ⟨"", false, sampleRenderer, sampleImage, stack, identityDims, ⟨100, 100⟩⟩

/-! Basic facts about `promiseAll` and the sanitized stack. -/

theorem promiseAll_ok_of_all (l : List (Except Err Unit))
    (h : ∀ r ∈ l, r = Except.ok ()) : promiseAll l = Except.ok () := by
  induction l with
  | nil => rfl
  | cons r rest ih =>
    have hr := h r (List.mem_cons_self r rest)
    subst hr
    exact ih (fun x hx => h x (List.mem_cons_of_mem _ hx))

theorem promiseAll_error_mem (l : List (Except Err Unit)) (e : Err)
    (h : promiseAll l = Except.error e) : Except.error e ∈ l := by
  induction l with
  | nil => simp [promiseAll] at h
  | cons r rest ih =>
    cases r with
    | ok u =>
      simp only [promiseAll] at h
      exact List.mem_cons_of_mem _ (ih h)
    | error e2 =>
      simp only [promiseAll] at h
      cases h
      exact List.mem_cons_self _ _

theorem promiseAll_error_of_exists (l : List (Except Err Unit))
    (h : ∃ r ∈ l, r ≠ Except.ok ()) :
    ∃ e, promiseAll l = Except.error e := by
  induction l with
  | nil => simp at h
  | cons r rest ih =>
    cases r with
    | error e => exact ⟨e, rfl⟩
    | ok u =>
      cases u
      rcases h with ⟨s, hs, hne⟩
      rcases List.mem_cons.mp hs with heq | hmem
      · exact absurd heq.symm (Ne.symm hne)
      · exact ih ⟨s, hmem, hne⟩

theorem sanitizedStackOf_eq_filterMap (stack : List (Option Operation)) :
    sanitizedStackOf stack = stack.filterMap id := by
  induction stack with
  | nil => rfl
  | cons x rest ih =>
    cases x with
    | none => simpa [sanitizedStackOf] using ih
    | some op => simpa [sanitizedStackOf] using ih

theorem sanitizedStackOf_nil_of_all_none (stack : List (Option Operation))
    (h : ∀ x ∈ stack, x = none) : sanitizedStackOf stack = [] := by
  induction stack with
  | nil => rfl
  | cons x rest ih =>
    have hx := h x (List.mem_cons_self x rest)
    subst hx
    exact ih (fun y hy => h y (List.mem_cons_of_mem _ hy))

/-! Shape lemmas for `render()`: one per way the phased protocol can
unfold. -/

theorem render_of_validation_error (ri : RenderImage) (e : Err)
    (hv : promiseAll (ri.sanitizedStack.map Operation.validateSettings)
        = Except.error e) :
    ri.render = ⟨ri.sanitizedStack.map (fun op => Event.validate op.id),
      ri.renderer, Except.error e⟩ := by
  simp only [RenderImage.render, hv]

theorem render_of_render_error (ri : RenderImage) (e : Err)
    (hv : promiseAll (ri.sanitizedStack.map Operation.validateSettings)
        = Except.ok ())
    (hr : promiseAll (ri.sanitizedStack.map
        (fun op => (op.render ri.renderer).2.2)) = Except.error e) :
    ri.render = ⟨ri.sanitizedStack.map (fun op => Event.validate op.id)
        ++ ri.sanitizedStack.map (fun op => Event.renderOp op.id),
      renderPhase ri.sanitizedStack ri.renderer, Except.error e⟩ := by
  simp only [RenderImage.render, hv, hr]

theorem render_of_ok (ri : RenderImage)
    (hv : promiseAll (ri.sanitizedStack.map Operation.validateSettings)
        = Except.ok ())
    (hr : promiseAll (ri.sanitizedStack.map
        (fun op => (op.render ri.renderer).2.2)) = Except.ok ()) :
    ri.render =
      (if (ri.dimensions.calculateFinalDimensions
            (renderPhase ri.sanitizedStack ri.renderer).size).equals
          (renderPhase ri.sanitizedStack ri.renderer).size then
        ⟨ri.sanitizedStack.map (fun op => Event.validate op.id)
            ++ ri.sanitizedStack.map (fun op => Event.renderOp op.id)
            ++ [Event.renderFinal, Event.getSize],
          renderPhase ri.sanitizedStack ri.renderer, Except.ok ()⟩
      else
        ⟨ri.sanitizedStack.map (fun op => Event.validate op.id)
            ++ ri.sanitizedStack.map (fun op => Event.renderOp op.id)
            ++ [Event.renderFinal, Event.getSize,
                Event.resizeTo (ri.dimensions.calculateFinalDimensions
                  (renderPhase ri.sanitizedStack ri.renderer).size)],
          { renderPhase ri.sanitizedStack ri.renderer with
              size := ri.dimensions.calculateFinalDimensions
                (renderPhase ri.sanitizedStack ri.renderer).size },
          Except.ok ()⟩) := by
  simp only [RenderImage.render, hv, hr, Renderer.renderFinal,
    Renderer.getSize, Renderer.resizeTo]

/-! Facts about the event projections of traces. -/

theorem resizeArgs_append (s t : List Event) :
    resizeArgs (s ++ t) = resizeArgs s ++ resizeArgs t :=
  List.filterMap_append s t _

theorem resizeArgs_validate_map (ops : List Operation) :
    resizeArgs (ops.map (fun op => Event.validate op.id)) = [] := by
  induction ops with
  | nil => rfl
  | cons op rest ih => simp [resizeArgs, List.filterMap_cons, ih]

theorem resizeArgs_renderOp_map (ops : List Operation) :
    resizeArgs (ops.map (fun op => Event.renderOp op.id)) = [] := by
  induction ops with
  | nil => rfl
  | cons op rest ih => simp [resizeArgs, List.filterMap_cons, ih]

theorem validatedIds_append (s t : List Event) :
    validatedIds (s ++ t) = validatedIds s ++ validatedIds t :=
  List.filterMap_append s t _

theorem validatedIds_validate_map (ops : List Operation) :
    validatedIds (ops.map (fun op => Event.validate op.id))
      = ops.map Operation.id := by
  induction ops with
  | nil => rfl
  | cons op rest ih => simpa [validatedIds, List.filterMap_cons] using ih

theorem validatedIds_renderOp_map (ops : List Operation) :
    validatedIds (ops.map (fun op => Event.renderOp op.id)) = [] := by
  induction ops with
  | nil => rfl
  | cons op rest ih => simp [validatedIds, List.filterMap_cons, ih]

/-- Claim C1: if any operation of the sanitized stack fails validation,
`render()` fails with a validation error of the sanitized stack, no
operation render call is issued, and the backend is left untouched by the
call. -/
theorem validation_gate (ri : RenderImage)
    (h : ∃ op ∈ ri.sanitizedStack, op.validateResult ≠ Except.ok ()) :
    (∃ e, (ri.render).outcome = Except.error e ∧
        ∃ op ∈ ri.sanitizedStack, op.validateResult = Except.error e) ∧
    (∀ i, Event.renderOp i ∉ (ri.render).trace) ∧
    (ri.render).renderer = ri.renderer := by
  rcases h with ⟨op, hmem, hne⟩
  have hex : ∃ r ∈ ri.sanitizedStack.map Operation.validateSettings,
      r ≠ Except.ok () :=
    ⟨op.validateResult, List.mem_map.mpr ⟨op, hmem, rfl⟩, hne⟩
  rcases promiseAll_error_of_exists _ hex with ⟨e, he⟩
  have hrender := render_of_validation_error ri e he
  have hmem2 := promiseAll_error_mem _ _ he
  rcases List.mem_map.mp hmem2 with ⟨op2, hop2, heq⟩
  refine ⟨⟨e, by rw [hrender], op2, hop2, heq⟩, ?_, by rw [hrender]⟩
  intro i
  rw [hrender]
  simp

/-- Claim C4: the sanitized stack is exactly the subsequence of present
entries of the original stack, every absent entry dropped and the order
preserved. -/
theorem sanitized_stack_spec (ri : RenderImage) :
    ri.sanitizedStack = ri.stack.filterMap id ∧
    List.Sublist (ri.sanitizedStack.map some) ri.stack := by
  refine ⟨sanitizedStackOf_eq_filterMap ri.stack, ?_⟩
  show List.Sublist ((sanitizedStackOf ri.stack).map some) ri.stack
  induction ri.stack with
  | nil => simp [sanitizedStackOf]
  | cons x rest ih =>
    cases x with
    | none => exact List.Sublist.cons none ih
    | some op =>
      simpa [sanitizedStackOf] using List.Sublist.cons₂ (some op) ih

/-- Claim C6: when neither backend reports itself supported, construction
fails synchronously with the no-renderer-available error and no
`drawImage` call is issued. -/
theorem no_renderer_available (env : Environment) (image : Image)
    (stack : List (Option Operation)) (dims : ImageDimensions)
    (pref : String) (hw : env.webglSupported = false)
    (hc : env.canvasSupported = false) :
    (RenderImage.construct env image stack dims pref).2
        = Except.error ConstructError.noRendererAvailable ∧
    ∀ n, Event.drawImage n ∉
        (RenderImage.construct env image stack dims pref).1 := by
  simp [RenderImage.construct, selectRenderer, webglIsSupported,
    canvasIsSupported, hw, hc]

/-- Claim C10: on a stack that is empty or holds only absent entries,
`render()` resolves successfully, issuing only the finalize, size query
and (when the resolved size differs) the single resize call — no
operation-level validate or render request. -/
theorem render_trivial_stack (ri : RenderImage)
    (h : ∀ x ∈ ri.stack, x = none) :
    (ri.render).outcome = Except.ok () ∧
    (ri.render).trace =
      Event.renderFinal :: Event.getSize ::
        (if (ri.dimensions.calculateFinalDimensions ri.renderer.size).equals
            ri.renderer.size then []
         else [Event.resizeTo
            (ri.dimensions.calculateFinalDimensions ri.renderer.size)]) := by
  have hs : ri.sanitizedStack = [] := sanitizedStackOf_nil_of_all_none _ h
  have hv : promiseAll (ri.sanitizedStack.map Operation.validateSettings)
      = Except.ok () := by rw [hs]; rfl
  have hr : promiseAll (ri.sanitizedStack.map
      (fun op => (op.render ri.renderer).2.2)) = Except.ok () := by
    rw [hs]; rfl
  have hq := render_of_ok ri hv hr
  rw [hq, hs]
  simp only [renderPhase, List.map_nil, List.nil_append]
  split <;> rename_i hcond <;> simp [hcond]

theorem resizeArgs_final_pair :
    resizeArgs [Event.renderFinal, Event.getSize] = [] := rfl

theorem resizeArgs_final_triple (v : Vector2) :
    resizeArgs [Event.renderFinal, Event.getSize, Event.resizeTo v]
      = [v] := rfl

/-- Claim C2: for every combination of the two capability probes and
every preference value, construction selects WebGL when it reports
supported and the preference is not canvas; otherwise Canvas when it
reports supported; otherwise it fails — and `_webglEnabled` records true
exactly on the WebGL selections. -/
theorem backend_selection (env : Environment) (image : Image)
    (stack : List (Option Operation)) (dims : ImageDimensions)
    (pref : String) :
    if env.webglSupported && pref != "canvas" then
      ∃ ri, (RenderImage.construct env image stack dims pref).2
          = Except.ok ri ∧
        ri.renderer.kind = RendererKind.webgl ∧ ri.webglEnabled = true
    else if env.canvasSupported then
      ∃ ri, (RenderImage.construct env image stack dims pref).2
          = Except.ok ri ∧
        ri.renderer.kind = RendererKind.canvas ∧ ri.webglEnabled = false
    else
      (RenderImage.construct env image stack dims pref).2
        = Except.error ConstructError.noRendererAvailable := by
  by_cases h1 : (env.webglSupported && pref != "canvas") = true
  · rw [if_pos h1]
    have hc : (RenderImage.construct env image stack dims pref).2
        = Except.ok
          { preferredRenderer := pref, webglEnabled := true,
            renderer := ⟨RendererKind.webgl, ⟨image.width, image.height⟩⟩,
            image := image, stack := stack, dimensions := dims,
            initialDimensions := ⟨image.width, image.height⟩ } := by
      simp [RenderImage.construct, selectRenderer, webglIsSupported, h1,
        Renderer.drawImage]
    exact ⟨_, hc, rfl, rfl⟩
  · rw [if_neg h1]
    by_cases h2 : env.canvasSupported = true
    · rw [if_pos h2]
      have hc : (RenderImage.construct env image stack dims pref).2
          = Except.ok
            { preferredRenderer := pref, webglEnabled := false,
              renderer := ⟨RendererKind.canvas, ⟨image.width, image.height⟩⟩,
              image := image, stack := stack, dimensions := dims,
              initialDimensions := ⟨image.width, image.height⟩ } := by
        simp [RenderImage.construct, selectRenderer, webglIsSupported,
          canvasIsSupported, h1, h2, Renderer.drawImage]
      exact ⟨_, hc, rfl, rfl⟩
    · rw [if_neg h2]
      simp [RenderImage.construct, selectRenderer, webglIsSupported,
        canvasIsSupported, h1, h2]

theorem draw_image_not_in_render (ri : RenderImage) (n : Nat) :
    Event.drawImage n ∉ (ri.render).trace := by
  cases hv : promiseAll (ri.sanitizedStack.map Operation.validateSettings)
      with
  | error e =>
    rw [render_of_validation_error ri e hv]
    simp
  | ok u =>
    cases u
    cases hr : promiseAll (ri.sanitizedStack.map
        (fun op => (op.render ri.renderer).2.2)) with
    | error e =>
      rw [render_of_render_error ri e hv hr]
      simp
    | ok u2 =>
      cases u2
      rw [render_of_ok ri hv hr]
      split <;> simp

/-- Claim C7: when construction succeeds, the backend receives exactly
one `drawImage` call, carrying the original image handle, during
construction — and the `render()` phases never issue one. -/
theorem draw_image_once (env : Environment) (image : Image)
    (stack : List (Option Operation)) (dims : ImageDimensions)
    (pref : String) (ri : RenderImage)
    (h : (RenderImage.construct env image stack dims pref).2
        = Except.ok ri) :
    (RenderImage.construct env image stack dims pref).1
        = [Event.drawImage image.id] ∧
    ∀ n, Event.drawImage n ∉ (ri.render).trace := by
  refine ⟨?_, fun n => draw_image_not_in_render ri n⟩
  simp only [RenderImage.construct] at h ⊢
  cases hsel : selectRenderer env pref (Vector2.mk image.width image.height)
      with
  | none =>
    rw [hsel] at h
    simp at h
  | some p =>
    obtain ⟨r, flag⟩ := p
    simp [Renderer.drawImage]

/-- Claim C3: a successful `render()` resolves the final size from the
backend's post-finalize size and the stored dimensions specification, and
issues no `resizeTo` when they agree and exactly one `resizeTo` with the
resolved size when they differ. -/
theorem resize_protocol (ri : RenderImage)
    (h : (ri.render).outcome = Except.ok ()) :
    resizeArgs (ri.render).trace =
      (if (ri.dimensions.calculateFinalDimensions
            (renderPhase ri.sanitizedStack ri.renderer).size).equals
          (renderPhase ri.sanitizedStack ri.renderer).size then []
       else [ri.dimensions.calculateFinalDimensions
          (renderPhase ri.sanitizedStack ri.renderer).size]) := by
  cases hv : promiseAll (ri.sanitizedStack.map Operation.validateSettings)
      with
  | error e =>
    rw [render_of_validation_error ri e hv] at h
    exact absurd h (by simp)
  | ok u =>
    cases u
    cases hr : promiseAll (ri.sanitizedStack.map
        (fun op => (op.render ri.renderer).2.2)) with
    | error e =>
      rw [render_of_render_error ri e hv hr] at h
      exact absurd h (by simp)
    | ok u2 =>
      cases u2
      rw [render_of_ok ri hv hr]
      split <;> rename_i hcond <;>
        simp [hcond, resizeArgs_append, resizeArgs_validate_map,
          resizeArgs_renderOp_map, resizeArgs_final_pair,
          resizeArgs_final_triple]

theorem validations_ok (ri : RenderImage)
    (h : ∀ op ∈ ri.sanitizedStack,
        op.validateResult = Except.ok () ∧ op.renderResult = Except.ok ()) :
    promiseAll (ri.sanitizedStack.map Operation.validateSettings)
      = Except.ok () := by
  apply promiseAll_ok_of_all
  intro r hrm
  rcases List.mem_map.mp hrm with ⟨op, hop, rfl⟩
  exact (h op hop).1

theorem renders_ok (ri : RenderImage)
    (h : ∀ op ∈ ri.sanitizedStack,
        op.validateResult = Except.ok () ∧ op.renderResult = Except.ok ()) :
    promiseAll (ri.sanitizedStack.map
        (fun op => (op.render ri.renderer).2.2)) = Except.ok () := by
  apply promiseAll_ok_of_all
  intro r hrm
  rcases List.mem_map.mp hrm with ⟨op, hop, rfl⟩
  exact (h op hop).2

theorem count_renderFinal_validate_map (ops : List Operation) :
    (ops.map (fun op => Event.validate op.id)).count Event.renderFinal
      = 0 := by
  rw [List.count_eq_zero]
  simp

theorem count_renderFinal_renderOp_map (ops : List Operation) :
    (ops.map (fun op => Event.renderOp op.id)).count Event.renderFinal
      = 0 := by
  rw [List.count_eq_zero]
  simp

theorem count_renderFinal_eq_one (ri : RenderImage)
    (h : ∀ op ∈ ri.sanitizedStack,
        op.validateResult = Except.ok () ∧ op.renderResult = Except.ok ()) :
    (ri.render).trace.count Event.renderFinal = 1 := by
  rw [render_of_ok ri (validations_ok ri h) (renders_ok ri h)]
  split <;>
    simp [List.count_append, count_renderFinal_validate_map,
      count_renderFinal_renderOp_map, List.count_cons]

/-- Claim C5: in every `render()` invocation that reaches the finalize
phase, the backend's `renderFinal` is requested exactly once and only
after every operation's render step of that invocation; a second `render()`
call on the same instance issues `renderFinal` again — no caching of the
final output. -/
theorem renderFinal_protocol (ri : RenderImage)
    (h : ∀ op ∈ ri.sanitizedStack,
        op.validateResult = Except.ok () ∧ op.renderResult = Except.ok ()) :
    ((ri.render).trace.count Event.renderFinal = 1) ∧
    (∃ p q, (ri.render).trace = p ++ Event.renderFinal :: q ∧
        (∀ op ∈ ri.sanitizedStack, Event.renderOp op.id ∈ p) ∧
        (∀ i, Event.renderOp i ∉ q)) ∧
    ((RenderImage.afterRender ri).render.trace.count Event.renderFinal
      = 1) := by
  refine ⟨count_renderFinal_eq_one ri h, ?_,
    count_renderFinal_eq_one (RenderImage.afterRender ri) h⟩
  rw [render_of_ok ri (validations_ok ri h) (renders_ok ri h)]
  split
  · refine ⟨ri.sanitizedStack.map (fun op => Event.validate op.id)
        ++ ri.sanitizedStack.map (fun op => Event.renderOp op.id),
      [Event.getSize], by simp, ?_, by simp⟩
    intro op hop
    exact List.mem_append_right _ (List.mem_map.mpr ⟨op, hop, rfl⟩)
  · refine ⟨ri.sanitizedStack.map (fun op => Event.validate op.id)
        ++ ri.sanitizedStack.map (fun op => Event.renderOp op.id),
      [Event.getSize, Event.resizeTo (ri.dimensions.calculateFinalDimensions
        (renderPhase ri.sanitizedStack ri.renderer).size)],
      by simp, ?_, by simp⟩
    intro op hop
    exact List.mem_append_right _ (List.mem_map.mpr ⟨op, hop, rfl⟩)

theorem sanitizedStackOf_map_some (ops : List Operation) :
    sanitizedStackOf (ops.map some) = ops := by
  induction ops with
  | nil => rfl
  | cons op rest ih => simp [sanitizedStackOf, ih]

theorem sanitizedStackOf_filter_map_some (s : List (Option Operation)) :
    sanitizedStackOf ((s.filterMap id).map some) = sanitizedStackOf s := by
  rw [sanitizedStackOf_map_some, sanitizedStackOf_eq_filterMap]

theorem render_depends_on_sanitized (a b : RenderImage)
    (hstack : a.sanitizedStack = b.sanitizedStack)
    (hrend : a.renderer = b.renderer) (hdim : a.dimensions = b.dimensions) :
    a.render = b.render := by
  simp only [RenderImage.render, hstack, hrend, hdim]

theorem validatedIds_final_pair :
    validatedIds [Event.renderFinal, Event.getSize] = [] := rfl

theorem validatedIds_final_triple (v : Vector2) :
    validatedIds [Event.renderFinal, Event.getSize, Event.resizeTo v]
      = [] := rfl

theorem validatedIds_render (ri : RenderImage) :
    validatedIds (ri.render).trace = ri.sanitizedStack.map Operation.id := by
  cases hv : promiseAll (ri.sanitizedStack.map Operation.validateSettings)
      with
  | error e =>
    rw [render_of_validation_error ri e hv]
    exact validatedIds_validate_map _
  | ok u =>
    cases u
    cases hr : promiseAll (ri.sanitizedStack.map
        (fun op => (op.render ri.renderer).2.2)) with
    | error e =>
      rw [render_of_render_error ri e hv hr]
      simp [validatedIds_append, validatedIds_validate_map,
        validatedIds_renderOp_map]
    | ok u2 =>
      cases u2
      rw [render_of_ok ri hv hr]
      split <;>
        simp [validatedIds_append, validatedIds_validate_map,
          validatedIds_renderOp_map, validatedIds_final_pair,
          validatedIds_final_triple]

/-- Claim C8: the sanitized stack is recomputed from the instance's stack
reference on each `render()` call: after a first call, a `render()` on the
instance holding a mutated stack behaves exactly as the filtered result of
the mutated stack dictates, its validation requests being those of the
mutated stack's sanitization. -/
theorem stack_recomputed (ri : RenderImage) (s2 : List (Option Operation)) :
    ({ ri.afterRender with stack := s2 } : RenderImage).render
      = ({ ri.afterRender with
            stack := (s2.filterMap id).map some } : RenderImage).render ∧
    validatedIds
        (({ ri.afterRender with stack := s2 } : RenderImage).render).trace
      = (sanitizedStackOf s2).map Operation.id := by
  constructor
  · refine render_depends_on_sanitized _ _ ?_ rfl rfl
    show sanitizedStackOf s2
        = sanitizedStackOf ((s2.filterMap id).map some)
    exact (sanitizedStackOf_filter_map_some s2).symm
  · rw [validatedIds_render]
    rfl

/-- Claim C9: neither construction nor `render()` mutates the
caller-supplied operation stack: the constructed instance holds it
unchanged, and after a `render()` call the held stack — hence its
sanitization — is still the same. -/
theorem stack_never_mutated (env : Environment) (image : Image)
    (s : List (Option Operation)) (dims : ImageDimensions) (pref : String)
    (ri : RenderImage)
    (h : (RenderImage.construct env image s dims pref).2 = Except.ok ri) :
    ri.stack = s ∧ (RenderImage.afterRender ri).stack = ri.stack ∧
    (RenderImage.afterRender ri).sanitizedStack = ri.sanitizedStack := by
  refine ⟨?_, rfl, rfl⟩
  simp only [RenderImage.construct] at h
  cases hsel : selectRenderer env pref (Vector2.mk image.width image.height)
      with
  | none =>
    rw [hsel] at h
    simp at h
  | some p =>
    obtain ⟨r, flag⟩ := p
    rw [hsel] at h
    simp [Renderer.drawImage] at h
    rw [← h]

/-- Concrete instantiation of `validation_gate`: a two-operation stack
whose second operation fails validation with reason 7. -/
theorem validation_gate_witness :
    (∃ op ∈ (sampleRI [some (okOp 1),
        some (badValidateOp 2 7)]).sanitizedStack,
        op.validateResult ≠ Except.ok ()) ∧
    ((∃ e, ((sampleRI [some (okOp 1),
          some (badValidateOp 2 7)]).render).outcome = Except.error e ∧
        ∃ op ∈ (sampleRI [some (okOp 1),
            some (badValidateOp 2 7)]).sanitizedStack,
          op.validateResult = Except.error e) ∧
      (∀ i, Event.renderOp i ∉
          ((sampleRI [some (okOp 1),
              some (badValidateOp 2 7)]).render).trace) ∧
      ((sampleRI [some (okOp 1),
          some (badValidateOp 2 7)]).render).renderer
        = (sampleRI [some (okOp 1), some (badValidateOp 2 7)]).renderer) :=
  have hp : ∃ op ∈ (sampleRI [some (okOp 1),
      some (badValidateOp 2 7)]).sanitizedStack,
      op.validateResult ≠ Except.ok () :=
    ⟨badValidateOp 2 7,
      by simp [sampleRI, RenderImage.sanitizedStack, sanitizedStackOf],
      by simp [badValidateOp]⟩
  ⟨hp, validation_gate _ hp⟩

/-- Concrete instantiation of `resize_protocol`: a successful render of
one operation under the identity dimensions specification. -/
theorem resize_protocol_witness :
    ((sampleRI [some (okOp 1)]).render).outcome = Except.ok () ∧
    resizeArgs ((sampleRI [some (okOp 1)]).render).trace =
      (if ((sampleRI [some (okOp 1)]).dimensions.calculateFinalDimensions
            (renderPhase (sampleRI [some (okOp 1)]).sanitizedStack
              (sampleRI [some (okOp 1)]).renderer).size).equals
          (renderPhase (sampleRI [some (okOp 1)]).sanitizedStack
            (sampleRI [some (okOp 1)]).renderer).size then []
       else [(sampleRI [some (okOp 1)]).dimensions.calculateFinalDimensions
          (renderPhase (sampleRI [some (okOp 1)]).sanitizedStack
            (sampleRI [some (okOp 1)]).renderer).size]) :=
  have hp : ((sampleRI [some (okOp 1)]).render).outcome
      = Except.ok () := rfl
  ⟨hp, resize_protocol _ hp⟩

/-- Concrete instantiation of `renderFinal_protocol`: one successful
operation. -/
theorem renderFinal_protocol_witness :
    (∀ op ∈ (sampleRI [some (okOp 1)]).sanitizedStack,
        op.validateResult = Except.ok () ∧
        op.renderResult = Except.ok ()) ∧
    ((((sampleRI [some (okOp 1)]).render).trace.count Event.renderFinal
        = 1) ∧
      (∃ p q, ((sampleRI [some (okOp 1)]).render).trace
          = p ++ Event.renderFinal :: q ∧
        (∀ op ∈ (sampleRI [some (okOp 1)]).sanitizedStack,
          Event.renderOp op.id ∈ p) ∧
        (∀ i, Event.renderOp i ∉ q)) ∧
      ((RenderImage.afterRender
          (sampleRI [some (okOp 1)])).render.trace.count Event.renderFinal
        = 1)) :=
  have hp : ∀ op ∈ (sampleRI [some (okOp 1)]).sanitizedStack,
      op.validateResult = Except.ok () ∧ op.renderResult = Except.ok () := by
    intro op hop
    simp [sampleRI, RenderImage.sanitizedStack, sanitizedStackOf] at hop
    subst hop
    exact ⟨rfl, rfl⟩
  ⟨hp, renderFinal_protocol _ hp⟩

/-- Concrete instantiation of `no_renderer_available`: a host environment
supporting neither backend. -/
theorem no_renderer_available_witness :
    (Environment.mk false false).webglSupported = false ∧
    (Environment.mk false false).canvasSupported = false ∧
    ((RenderImage.construct (Environment.mk false false) sampleImage []
        identityDims "").2
      = Except.error ConstructError.noRendererAvailable ∧
    ∀ n, Event.drawImage n ∉
        (RenderImage.construct (Environment.mk false false) sampleImage []
          identityDims "").1) :=
  ⟨rfl, rfl, no_renderer_available _ _ _ _ _ rfl rfl⟩

/-- Concrete instantiation of `draw_image_once`: a successful
construction over an environment supporting both backends. -/
theorem draw_image_once_witness :
    ((RenderImage.construct sampleEnv sampleImage [] identityDims "").2
        = Except.ok (RenderImage.mk "" true
            (Renderer.mk RendererKind.webgl (Vector2.mk 100 100))
            sampleImage [] identityDims (Vector2.mk 100 100))) ∧
    ((RenderImage.construct sampleEnv sampleImage [] identityDims "").1
        = [Event.drawImage sampleImage.id] ∧
      ∀ n, Event.drawImage n ∉
        ((RenderImage.mk "" true
            (Renderer.mk RendererKind.webgl (Vector2.mk 100 100))
            sampleImage [] identityDims (Vector2.mk 100 100)).render).trace) :=
  have hp : (RenderImage.construct sampleEnv sampleImage [] identityDims
      "").2 = Except.ok (RenderImage.mk "" true
        (Renderer.mk RendererKind.webgl (Vector2.mk 100 100)) sampleImage
        [] identityDims (Vector2.mk 100 100)) := by
    simp [RenderImage.construct, selectRenderer, webglIsSupported,
      sampleEnv, sampleImage, Renderer.drawImage]
  ⟨hp, draw_image_once _ _ _ _ _ _ hp⟩

/-- Concrete instantiation of `stack_never_mutated`: a canvas-preferring
construction over a one-operation stack. -/
theorem stack_never_mutated_witness :
    ((RenderImage.construct sampleEnv sampleImage [some (okOp 3)]
        identityDims "canvas").2
      = Except.ok (RenderImage.mk "canvas" false
          (Renderer.mk RendererKind.canvas (Vector2.mk 100 100))
          sampleImage [some (okOp 3)] identityDims (Vector2.mk 100 100))) ∧
    ((RenderImage.mk "canvas" false
        (Renderer.mk RendererKind.canvas (Vector2.mk 100 100)) sampleImage
        [some (okOp 3)] identityDims (Vector2.mk 100 100)).stack
      = [some (okOp 3)] ∧
    (RenderImage.afterRender (RenderImage.mk "canvas" false
        (Renderer.mk RendererKind.canvas (Vector2.mk 100 100)) sampleImage
        [some (okOp 3)] identityDims (Vector2.mk 100 100))).stack
      = (RenderImage.mk "canvas" false
        (Renderer.mk RendererKind.canvas (Vector2.mk 100 100)) sampleImage
        [some (okOp 3)] identityDims (Vector2.mk 100 100)).stack ∧
    (RenderImage.afterRender (RenderImage.mk "canvas" false
        (Renderer.mk RendererKind.canvas (Vector2.mk 100 100)) sampleImage
        [some (okOp 3)] identityDims (Vector2.mk 100 100))).sanitizedStack
      = (RenderImage.mk "canvas" false
        (Renderer.mk RendererKind.canvas (Vector2.mk 100 100)) sampleImage
        [some (okOp 3)] identityDims
        (Vector2.mk 100 100)).sanitizedStack) :=
  have hp : (RenderImage.construct sampleEnv sampleImage [some (okOp 3)]
      identityDims "canvas").2
      = Except.ok (RenderImage.mk "canvas" false
          (Renderer.mk RendererKind.canvas (Vector2.mk 100 100)) sampleImage
          [some (okOp 3)] identityDims (Vector2.mk 100 100)) := by
    simp [RenderImage.construct, selectRenderer, webglIsSupported,
      canvasIsSupported, sampleEnv, sampleImage, Renderer.drawImage]
  ⟨hp, stack_never_mutated _ _ _ _ _ _ hp⟩

/-- Concrete instantiation of `render_trivial_stack`: a stack of two
absent entries. -/
theorem render_trivial_stack_witness :
    (∀ x ∈ (sampleRI [none, none]).stack, x = none) ∧
    (((sampleRI [none, none]).render).outcome = Except.ok () ∧
      ((sampleRI [none, none]).render).trace =
        Event.renderFinal :: Event.getSize ::
          (if ((sampleRI [none, none]).dimensions.calculateFinalDimensions
              (sampleRI [none, none]).renderer.size).equals
              (sampleRI [none, none]).renderer.size then []
           else [Event.resizeTo
              ((sampleRI [none, none]).dimensions.calculateFinalDimensions
                (sampleRI [none, none]).renderer.size)])) :=
  have hp : ∀ x ∈ (sampleRI [none, none]).stack, x = none := by
    intro x hx
    simpa [sampleRI] using hx
  ⟨hp, render_trivial_stack _ hp⟩

end Imgly
